import Mathlib

/-
Verification of the two-tier caching layer of the discord-github-bot
repository (src/services/cache.ts, src/types/index.ts, src/database/index.ts,
and the issues-table schema of schema.sql: `id INTEGER PRIMARY KEY`,
`UNIQUE(owner, repo, number)`, `CHECK (state IN ('open','closed'))`, and the
`cleanup_expired_issues` AFTER INSERT trigger).

The cache orchestrator (`CacheService`) composes:
  * an in-process memory tier (node-cache): entries carry an absolute expiry
    time in milliseconds (0 = no expiry); an entry is expired iff its expiry
    is non-zero and strictly below the current time (node-cache `_check`),
    and an expired entry is removed when accessed (deleteOnExpire).
  * a persistent tier (SQLite `issues` table): rows carry `expires_at` as the
    string produced by `new Date(...).toISOString()`, and queries filter with
    `expires_at > datetime("now")`.  Both operands of that comparison are
    non-numeric TEXT, so SQLite compares them byte-wise (BINARY collation),
    which we model by lexicographic comparison of the rendered strings.

Time is modelled as a natural number of milliseconds since the Unix epoch.
-/

/-- A GitHub issue record, flattening `user` and `repository` sub-objects of
the `GitHubIssue` type in src/types/index.ts. -/
structure GitHubIssue where
  id : Nat
  number : Nat
  title : String
  body : Option String
  state : String
  draft : Bool
  userLogin : String
  userAvatarUrl : String
  labels : List String
  createdAt : String
  updatedAt : String
  comments : Nat
  htmlUrl : String
  repoName : String
  repoFullName : String
  repoOwnerLogin : String
deriving Repr, DecidableEq

/-- A row of the persistent `issues` table.  `labels` is stored via a JSON
round-trip (`JSON.stringify` on write, `JSON.parse` on read), which is the
identity on the label list, so we keep the list itself.  `expires_at` and
`cached_at` are the TEXT timestamps actually stored. -/
structure IssueRow where
  id : Nat
  number : Int
  owner : String
  repo : String
  title : String
  body : Option String
  state : String
  draft : Nat
  userLogin : String
  userAvatarUrl : String
  labels : List String
  comments : Nat
  htmlUrl : String
  createdAt : String
  updatedAt : String
  cachedAt : String
  expiresAt : String
deriving Repr, DecidableEq

/-- The `stats` record of CacheService (hits, misses, sets, deletes). -/
structure CacheStats where
  hits : Nat
  misses : Nat
  sets : Nat
  deletes : Nat
deriving Repr, DecidableEq

/-- One memory-tier entry: the stored value and its absolute expiry time in
milliseconds (0 means no expiry, the node-cache convention for ttl 0). -/
structure MemEntry where
  value : GitHubIssue
  expiresAt : Nat
deriving Repr, DecidableEq

/-- The memory tier: node-cache's internal `data` object, at most one entry
per key (maintained by the operations below). -/
abbrev Memory := List (String × MemEntry)

/-- The record returned by `getStats` (only hits, misses and size). -/
structure StatsView where
  hits : Nat
  misses : Nat
  size : Nat
deriving Repr, DecidableEq

/-- The cache-specific error type (`CacheError` in src/types/index.ts). -/
structure CacheError where
  message : String
deriving Repr, DecidableEq

/-- Full state of a CacheService instance together with its backing store.
`dbOk` models reachability of the persistent store: when false, obtaining the
database handle (`getDatabaseManager().getDatabase()`) throws.  `dbReads` is
ghost instrumentation only: it counts executions of the row SELECT inside
`getFromDatabase` and is read by no operation. -/
structure CacheState where
  defaultTTL : Nat
  memory : Memory
  rows : List IssueRow
  stats : CacheStats
  dbOk : Bool
  dbReads : Nat
deriving Repr, DecidableEq

/-- Days since 1970-01-01 to a (year, month, day) triple of the proleptic
Gregorian calendar, the standard era-based conversion used by `Date`. -/
def civilFromDays (z0 : Nat) : Nat × Nat × Nat :=
  let z := z0 + 719468
  let era := z / 146097
  let doe := z % 146097
  let yoe := (doe - doe / 1460 + doe / 36524 - doe / 146096) / 365
  let y := yoe + era * 400
  let doy := doe - (365 * yoe + yoe / 4 - yoe / 100)
  let mp := (5 * doy + 2) / 153
  let d := doy - (153 * mp + 2) / 5 + 1
  let m := if mp < 10 then mp + 3 else mp - 9
  if m ≤ 2 then (y + 1, m, d) else (y, m, d)

/-- Zero-pad a number to two digits. -/
def pad2 (n : Nat) : String :=
  if n < 10 then "0" ++ toString n else toString n

/-- Zero-pad a number to three digits. -/
def pad3 (n : Nat) : String :=
  if n < 10 then "00" ++ toString n
  else if n < 100 then "0" ++ toString n
  else toString n

/-- Zero-pad a number to four digits. -/
def pad4 (n : Nat) : String :=
  if n < 10 then "000" ++ toString n
  else if n < 100 then "00" ++ toString n
  else if n < 1000 then "0" ++ toString n
  else toString n

/-- Render the date part "YYYY-MM-DD" of a day count since the epoch. -/
def renderDate (days : Nat) : String :=
  let c := civilFromDays days
  pad4 c.1 ++ "-" ++ pad2 c.2.1 ++ "-" ++ pad2 c.2.2

/-- `new Date(ms).toISOString()`: "YYYY-MM-DDTHH:MM:SS.mmmZ" in UTC. -/
def isoRender (ms : Nat) : String :=
  let days := ms / 86400000
  let rem := ms % 86400000
  renderDate days ++ "T" ++ pad2 (rem / 3600000) ++ ":" ++
    pad2 (rem % 3600000 / 60000) ++ ":" ++ pad2 (rem % 60000 / 1000) ++ "." ++
    pad3 (rem % 1000) ++ "Z"

/-- SQLite `datetime("now")`: "YYYY-MM-DD HH:MM:SS" in UTC, second precision. -/
def sqliteRender (ms : Nat) : String :=
  let days := ms / 86400000
  let rem := ms % 86400000
  renderDate days ++ " " ++ pad2 (rem / 3600000) ++ ":" ++
    pad2 (rem % 3600000 / 60000) ++ ":" ++ pad2 (rem % 60000 / 1000)

/-- Byte-wise (BINARY-collation) lexicographic order on character lists. -/
def charListLt : List Char → List Char → Bool
  | _, [] => false
  | [], _ :: _ => true
  | a :: as, b :: bs =>
    if a.toNat < b.toNat then true
    else if b.toNat < a.toNat then false
    else charListLt as bs

/-- SQLite TEXT comparison (BINARY collation) of two ASCII strings. -/
def strLt (a b : String) : Bool := charListLt a.data b.data

/-- The row-liveness test of the persistent tier: the SQL filter
`expires_at > datetime("now")`, i.e. the stored expiry string compares
strictly above the rendered current time. -/
def dbRowLive (r : IssueRow) (now : Nat) : Bool :=
  strLt (sqliteRender now) r.expiresAt

/-- Accumulate a digit list into a number. -/
def digitsToNat (cs : List Char) : Nat :=
  cs.foldl (fun a c => a * 10 + (c.toNat - 48)) 0

/-- Whitespace skipped by JavaScript `parseInt`. -/
def isJsSpace (c : Char) : Bool :=
  c == ' ' || c == '\t' || c == '\n' || c == '\r'

/-- JavaScript `parseInt(s, 10)`: skip leading whitespace, read an optional
sign and then the longest digit prefix; `none` models `NaN` (no digits). -/
def parseIntJS (str : String) : Option Int :=
  let cs := str.data.dropWhile isJsSpace
  match cs with
  | '-' :: rest =>
    let ds := rest.takeWhile Char.isDigit
    if ds.isEmpty then none else some (-(Int.ofNat (digitsToNat ds)))
  | '+' :: rest =>
    let ds := rest.takeWhile Char.isDigit
    if ds.isEmpty then none else some (Int.ofNat (digitsToNat ds))
  | _ =>
    let ds := cs.takeWhile Char.isDigit
    if ds.isEmpty then none else some (Int.ofNat (digitsToNat ds))

/-- Split a character list at every occurrence of the separator. -/
def splitChars (sep : Char) : List Char → List Char → List String
  | [], acc => [String.mk acc.reverse]
  | c :: cs, acc =>
    if c == sep then String.mk acc.reverse :: splitChars sep cs []
    else splitChars sep cs (c :: acc)

/-- JavaScript `s.split(sep)` for a one-character separator (what
`key.split(':')` does in cache.ts). -/
def jsSplit (s : String) (sep : Char) : List String :=
  splitChars sep s.data []

/-- Whether the first list is a prefix of the second. -/
def charPrefix : List Char → List Char → Bool
  | [], _ => true
  | _ :: _, [] => false
  | a :: as, b :: bs => a == b && charPrefix as bs

/-- JavaScript `s.startsWith(pre)`. -/
def jsStartsWith (s pre : String) : Bool :=
  charPrefix pre.data s.data

/-- node-cache expiry test (`_check`): an entry is expired iff its expiry
timestamp is non-zero and strictly below `Date.now()`. -/
def memExpired (e : MemEntry) (now : Nat) : Bool :=
  e.expiresAt != 0 && decide (e.expiresAt < now)

/-- node-cache expiry timestamp for a ttl in seconds: `now + ttl*1000` for a
positive ttl, 0 (no expiry) otherwise. -/
def memExpiry (ttl now : Nat) : Nat :=
  if 0 < ttl then now + ttl * 1000 else 0

/-- node-cache `get`: returns the live value; an expired entry is removed on
access (deleteOnExpire) and reported as absent. -/
def memGet (mem : Memory) (key : String) (now : Nat) :
    Option GitHubIssue × Memory :=
  match mem.find? (fun p => p.1 == key) with
  | none => (none, mem)
  | some kv =>
    if memExpired kv.2 now then (none, mem.filter (fun p => !(p.1 == key)))
    else (some kv.2.value, mem)

/-- node-cache `set`: overwrites any existing entry at the key. -/
def memSet (mem : Memory) (key : String) (v : GitHubIssue) (ttl now : Nat) :
    Memory :=
  (key, { value := v, expiresAt := memExpiry ttl now }) ::
    mem.filter (fun p => !(p.1 == key))

/-- node-cache `del`. -/
def memDel (mem : Memory) (key : String) : Memory :=
  mem.filter (fun p => !(p.1 == key))

/-- node-cache background sweep (checkperiod): evicts expired entries. -/
def memSweep (mem : Memory) (now : Nat) : Memory :=
  mem.filter (fun p => !memExpired p.2 now)

/-- `CACHE_KEYS.GITHUB_ISSUE` (src/types/index.ts):
`github:issue:${owner}:${repo}:${number}`. -/
def GITHUB_ISSUE (owner repo : String) (number : Nat) : String :=
  "github:issue:" ++ owner ++ ":" ++ repo ++ ":" ++ toString number

/-- `getDatabaseManager().getDatabase()`: yields the handle, or throws when
the persistent store is unreachable or cannot be initialised. -/
def dbGetDatabase (s : CacheState) : Except String Unit :=
  if s.dbOk then .ok () else .error "database unavailable"

/-- Whether the SQL parameter bound for the parsed issue number matches a
row's `number` column.  `none` models `NaN`, which the driver binds as NULL,
and `number = NULL` matches no row. -/
def intMatch (i : Int) (o : Option Int) : Bool :=
  match o with
  | some j => i == j
  | none => false

/-- The WHERE clause of the SELECT in `getFromDatabase`:
`owner = ? AND repo = ? AND number = ? AND expires_at > datetime("now")`. -/
def rowQueryMatch (r : IssueRow) (owner repo : String) (num : Option Int)
    (now : Nat) : Bool :=
  r.owner == owner && r.repo == repo && intMatch r.number num && dbRowLive r now

/-- The (owner, repo, number) triple the persistent path derives from a cache
key by colon-splitting (cache.ts, `getFromDatabase`). -/
def dbKeyColumns (key : String) : String × String × Option Int :=
  let parts := jsSplit key ':'
  (parts.getD 2 "", parts.getD 3 "", parseIntJS (parts.getD 4 ""))

/-- Reconstruction of a `GitHubIssue` from a database row, with the
`repository` fields rebuilt from the owner/repo parsed out of the key
(cache.ts, `getFromDatabase`). -/
def rowToIssue (r : IssueRow) (owner repo : String) : GitHubIssue :=
  { id := r.id
    number := r.number.toNat
    title := r.title
    body := r.body
    state := r.state
    draft := r.draft == 1
    userLogin := r.userLogin
    userAvatarUrl := r.userAvatarUrl
    labels := r.labels
    createdAt := r.createdAt
    updatedAt := r.updatedAt
    comments := r.comments
    htmlUrl := r.htmlUrl
    repoName := repo
    repoFullName := owner ++ "/" ++ repo
    repoOwnerLogin := owner }

/-- `CacheService.getFromDatabase`: wrapped in try/catch, so any storage
fault (modelled by `dbGetDatabase` failing) is logged and mapped to null.
The ghost `dbReads` counter is bumped exactly when the SELECT runs. -/
def CacheService.getFromDatabase (s : CacheState) (key : String) (now : Nat) :
    Option GitHubIssue × CacheState :=
  let parts := jsSplit key ':'
  let owner := parts.getD 2 ""
  let repo := parts.getD 3 ""
  let num := parseIntJS (parts.getD 4 "")
  match dbGetDatabase s with
  | .error _ => (none, s)
  | .ok _ =>
    if jsStartsWith key "github:issue:" ∧ 5 ≤ parts.length then
      match s.rows.find? (fun r => rowQueryMatch r owner repo num now) with
      | some row => (some (rowToIssue row owner repo),
                     { s with dbReads := s.dbReads + 1 })
      | none => (none, { s with dbReads := s.dbReads + 1 })
    else (none, s)

/-- The row written by `saveToDatabase` for an issue-shaped value.  Field by
field it mirrors the INSERT: `user?.login || ''` and `comments || 0` are the
identity on our flattened fields, and the JSON round-trip keeps `labels`. -/
def mkRow (issue : GitHubIssue) (owner repo cachedAt expiresAt : String) :
    IssueRow :=
  { id := issue.id
    number := Int.ofNat issue.number
    owner := owner
    repo := repo
    title := issue.title
    body := issue.body
    state := issue.state
    draft := if issue.draft then 1 else 0
    userLogin := issue.userLogin
    userAvatarUrl := issue.userAvatarUrl
    labels := issue.labels
    comments := issue.comments
    htmlUrl := issue.htmlUrl
    createdAt := issue.createdAt
    updatedAt := issue.updatedAt
    cachedAt := cachedAt
    expiresAt := expiresAt }

/-- The `INSERT OR REPLACE INTO issues` of `saveToDatabase`.  The `issues`
schema declares `id INTEGER PRIMARY KEY` and `UNIQUE(owner, repo, number)`,
so the REPLACE first deletes every existing row that conflicts with the new
row on either constraint — same `id`, or same (owner, repo, number) — and
then inserts the new row. -/
def upsertRow (rows : List IssueRow) (r : IssueRow) : List IssueRow :=
  r :: rows.filter (fun q =>
    !(q.id == r.id) &&
      !(q.owner == r.owner && q.repo == r.repo && q.number == r.number))

/-- The `cleanup_expired_issues` trigger of the schema: AFTER INSERT ON
issues, `DELETE FROM issues WHERE expires_at < CURRENT_TIMESTAMP` — the same
byte-wise TEXT comparison as the read filter, with `CURRENT_TIMESTAMP`
rendered like `datetime("now")`. -/
def purgeExpiredRows (rows : List IssueRow) (now : Nat) : List IssueRow :=
  rows.filter (fun q => !(strLt q.expiresAt (sqliteRender now)))

/-- `CacheService.saveToDatabase`: wrapped in try/catch, so a storage fault
is logged and swallowed (the state is left unchanged and no error escapes).
A row is written only for keys starting with `github:issue:` that split into
at least five parts, and only when the value has truthy `number` and `title`
(`typeof value === 'object' && value !== null` always holds for an issue
record).  The INSERT itself succeeds only when the value's state satisfies
the schema's `CHECK (state IN ('open', 'closed'))` — a violation throws and
is swallowed by the same catch.  A successful insert replaces rows
conflicting on `id` or on (owner, repo, number) and then fires the
`cleanup_expired_issues` AFTER INSERT trigger. -/
def CacheService.saveToDatabase (s : CacheState) (key : String)
    (value : GitHubIssue) (ttl now : Nat) : CacheState :=
  let parts := jsSplit key ':'
  let r := mkRow value (parts.getD 2 "") (parts.getD 3 "")
    (sqliteRender now) (isoRender (now + ttl * 1000))
  match dbGetDatabase s with
  | .error _ => s
  | .ok _ =>
    if jsStartsWith key "github:issue:" ∧ 5 ≤ parts.length ∧
        value.number ≠ 0 ∧ value.title ≠ "" then
      if value.state = "open" ∨ value.state = "closed" then
        { s with rows := purgeExpiredRows (upsertRow s.rows r) now }
      else s
    else s

/-- Whether the DELETE of `deleteFromDatabase` targets a row: for an
issue-shaped key, the row whose columns equal the parsed owner, repo and
number; for any other key nothing is deleted. -/
def rowDeleteTarget (key : String) (r : IssueRow) : Bool :=
  if jsStartsWith key "github:issue:" then
    let parts := jsSplit key ':'
    if 5 ≤ parts.length then
      r.owner == parts.getD 2 "" && r.repo == parts.getD 3 "" &&
        intMatch r.number (parseIntJS (parts.getD 4 ""))
    else false
  else false

/-- `CacheService.deleteFromDatabase`: try/catch around the DELETE; a storage
fault is logged and swallowed. -/
def CacheService.deleteFromDatabase (s : CacheState) (key : String) :
    CacheState :=
  match dbGetDatabase s with
  | .error _ => s
  | .ok _ => { s with rows := s.rows.filter (fun r => !rowDeleteTarget key r) }

/-- `CacheService.clearDatabase`: `DELETE FROM issues`, fault swallowed. -/
def CacheService.clearDatabase (s : CacheState) : CacheState :=
  match dbGetDatabase s with
  | .error _ => s
  | .ok _ => { s with rows := [] }

/-- `CacheService.getDatabaseCacheSize`: COUNT of rows passing the expiry
filter; a storage fault yields 0. -/
def CacheService.getDatabaseCacheSize (s : CacheState) (now : Nat) : Nat :=
  match dbGetDatabase s with
  | .error _ => 0
  | .ok _ => (s.rows.filter (fun r => dbRowLive r now)).length

/-- `CacheService.get`: memory tier first, then the persistent tier with
promotion into the memory tier (at the default TTL).  Every inner step
either cannot throw (memory operations) or catches its own storage faults
(`getFromDatabase`), so the outer catch of the source (which would count a
miss and return null) is unreachable and `get` is total. -/
def CacheService.get (s : CacheState) (key : String) (now : Nat) :
    Option GitHubIssue × CacheState :=
  match memGet s.memory key now with
  | (some v, mem1) =>
    (some v, { s with memory := mem1,
                      stats := { s.stats with hits := s.stats.hits + 1 } })
  | (none, mem1) =>
    match CacheService.getFromDatabase { s with memory := mem1 } key now with
    | (some v, s2) =>
      (some v, { s2 with
          memory := memSet s2.memory key v s2.defaultTTL now,
          stats := { s2.stats with hits := s2.stats.hits + 1 } })
    | (none, s2) =>
      (none, { s2 with stats := { s2.stats with misses := s2.stats.misses + 1 } })

/-- `ttl || this.defaultTTL`: a JavaScript falsy ttl (absent or 0) falls back
to the default. -/
def jsOr (ttl : Option Nat) (d : Nat) : Nat :=
  match ttl with
  | some t => if t = 0 then d else t
  | none => d

/-- `CacheService.set`: write the memory tier, then the persistent tier, then
count the set.  `saveToDatabase` swallows storage faults, and the memory
write cannot throw (no maxKeys configured), so the try-block always
completes. -/
def CacheService.set (s : CacheState) (key : String) (value : GitHubIssue)
    (ttl : Option Nat) (now : Nat) : CacheState :=
  let cacheTTL := jsOr ttl s.defaultTTL
  let s1 := { s with memory := memSet s.memory key value cacheTTL now }
  let s2 := CacheService.saveToDatabase s1 key value cacheTTL now
  { s2 with stats := { s2.stats with sets := s2.stats.sets + 1 } }

/-- `CacheService.set` with its error surface: the catch of the source wraps
any escaping exception in a `CacheError`, but no inner step can throw (see
`CacheService.set`), so the operation always succeeds. -/
def CacheService.setE (s : CacheState) (key : String) (value : GitHubIssue)
    (ttl : Option Nat) (now : Nat) : Except CacheError CacheState :=
  .ok (CacheService.set s key value ttl now)

/-- `CacheService.delete`: remove from both tiers, then count the delete
(unconditionally, whether or not the key was present). -/
def CacheService.delete (s : CacheState) (key : String) : CacheState :=
  let s1 := { s with memory := memDel s.memory key }
  let s2 := CacheService.deleteFromDatabase s1 key
  { s2 with stats := { s2.stats with deletes := s2.stats.deletes + 1 } }

/-- `CacheService.delete` with its error surface; as with `setE`, no inner
step can throw, so the operation always succeeds. -/
def CacheService.deleteE (s : CacheState) (key : String) :
    Except CacheError CacheState :=
  .ok (CacheService.delete s key)

/-- `CacheService.clear`: flush the memory tier an clear the persistent
tier (whose faults are swallowed by `clearDatabase`). -/
def CacheService.clear (s : CacheState) : CacheState :=
  CacheService.clearDatabase { s with memory := [] }

/-- `CacheService.clear` with its error surface; always succeeds. -/
def CacheService.clearE (s : CacheState) : Except CacheError CacheState :=
  .ok (CacheService.clear s)

/-- `CacheService.getStats`: hits, misses, and size = max of the memory
tier's key count (`memoryCache.keys().length`, which does not filter expired
entries) and the persistent tier's filtered row count. -/
def CacheService.getStats (s : CacheState) (now : Nat) : StatsView :=
  { hits := s.stats.hits
    misses := s.stats.misses
    size := max s.memory.length (CacheService.getDatabaseCacheSize s now) }

/-- `CacheService.getIssue`: `get` at the derived key. -/
def CacheService.getIssue (s : CacheState) (owner repo : String) (n : Nat)
    (now : Nat) : Option GitHubIssue × CacheState :=
  CacheService.get s (GITHUB_ISSUE owner repo n) now

/-- `CacheService.setIssue`: `set` at the derived key, with no explicit ttl. -/
def CacheService.setIssue (s : CacheState) (owner repo : String) (n : Nat)
    (issue : GitHubIssue) (now : Nat) : CacheState :=
  CacheService.set s (GITHUB_ISSUE owner repo n) issue none now

/-- `CacheService.cleanupExpired`: `DELETE FROM issues WHERE expires_at <
datetime("now")`, fault swallowed. -/
def CacheService.cleanupExpired (s : CacheState) (now : Nat) : CacheState :=
  match dbGetDatabase s with
  | .error _ => s
  | .ok _ =>
    { s with rows := s.rows.filter (fun r => !strLt r.expiresAt (sqliteRender now)) }

/-- A freshly constructed CacheService over a store with the given
reachability: empty memory tier, zeroed counters. -/
def newCacheService (ttl : Nat) (dbOk : Bool) : CacheState :=
  { defaultTTL := ttl, memory := [], rows := [],
    stats := ⟨0, 0, 0, 0⟩, dbOk := dbOk, dbReads := 0 }

/-- Constructing a new orchestrator over the same persistent store
(simulating a process restart of the fast cache). -/
def restart (s : CacheState) (ttl : Nat) : CacheState :=
  { defaultTTL := ttl, memory := [], rows := s.rows,
    stats := ⟨0, 0, 0, 0⟩, dbOk := s.dbOk, dbReads := 0 }

/-- Pointwise order on the statistics counters. -/
def statsLe (a b : CacheStats) : Prop :=
  a.hits ≤ b.hits ∧ a.misses ≤ b.misses ∧ a.sets ≤ b.sets ∧
    a.deletes ≤ b.deletes

/-- An issue reconstructed from its own row: every field survives except the
`repository` fields, which are rebuilt from the key's owner and repo. -/
def reconstructIssue (issue : GitHubIssue) (owner repo : String) : GitHubIssue :=
  { issue with repoName := repo, repoFullName := owner ++ "/" ++ repo,
               repoOwnerLogin := owner }

/-- A concrete issue used in the concrete scenarios below.  Its repository
fields agree with owner `octo` and repo `repo`, so it round-trips through the
persistent tier unchanged. -/
def issue0 : GitHubIssue :=
  { id := 101, number := 7, title := "Bug", body := some "crash on save",
    state := "open", draft := false, userLogin := "alice",
    userAvatarUrl := "https://avatars.example/alice",
    labels := ["bug"], createdAt := "2001-09-01T00:00:00Z",
    updatedAt := "2001-09-02T00:00:00Z", comments := 2,
    htmlUrl := "https://github.com/octo/repo/issues/7",
    repoName := "repo", repoFullName := "octo/repo", repoOwnerLogin := "octo" }

/-- The derived key for issue0: "github:issue:octo:repo:7". -/
def key0 : String := GITHUB_ISSUE "octo" "repo" 7

/-- A fresh service over a reachable store, after `set(key0, issue0, ttl=1)`
at 2001-09-09T01:46:40.000Z (epoch 1000000000000 ms). -/
def c1After : CacheState :=
  CacheService.set (newCacheService 300 true) key0 issue0 (some 1) 1000000000000

/-- A fresh service over a reachable store, after `set("session:1", issue0)`
(a key without the `github:issue:` namespace). -/
def c3After : CacheState :=
  CacheService.set (newCacheService 300 true) "session:1" issue0 none 1000000000000

/-- A fresh service whose persistent store is unreachable. -/
def sNoDb : CacheState := newCacheService 300 false

/-- A state holding one memory-tier entry that expired at
2001-09-09T01:46:41.000Z and has not been swept, over an empty store. -/
def sC7 : CacheState :=
  { defaultTTL := 300,
    memory := [("github:issue:octo:repo:7",
                { value := issue0, expiresAt := 1000000001000 })],
    rows := [], stats := ⟨0, 0, 0, 0⟩, dbOk := true, dbReads := 0 }

/-- A persistent-tier row for issue0, expiring at 2001-09-09T01:51:40.000Z. -/
def rowW2 : IssueRow :=
  mkRow issue0 "octo" "repo" "2001-09-09 01:46:40" "2001-09-09T01:51:40.000Z"

/-- A state whose entry for issue0 lives only in the persistent tier. -/
def sW2 : CacheState :=
  { defaultTTL := 300, memory := [], rows := [rowW2],
    stats := ⟨0, 0, 0, 0⟩, dbOk := true, dbReads := 0 }

/-- Helper: `saveToDatabase` only ever touches `rows`; every other component
of the state is preserved. -/
theorem saveToDatabase_proj (s : CacheState) (key : String) (v : GitHubIssue)
    (ttl now : Nat) :
    (CacheService.saveToDatabase s key v ttl now).stats = s.stats ∧
    (CacheService.saveToDatabase s key v ttl now).memory = s.memory ∧
    (CacheService.saveToDatabase s key v ttl now).defaultTTL = s.defaultTTL ∧
    (CacheService.saveToDatabase s key v ttl now).dbOk = s.dbOk := by
  unfold CacheService.saveToDatabase
  rcases dbGetDatabase s with e | u <;> simp
  split_ifs <;> simp

/-- Helper: `deleteFromDatabase` only ever touches `rows`. -/
theorem deleteFromDatabase_proj (s : CacheState) (key : String) :
    (CacheService.deleteFromDatabase s key).stats = s.stats ∧
    (CacheService.deleteFromDatabase s key).memory = s.memory := by
  unfold CacheService.deleteFromDatabase
  rcases dbGetDatabase s with e | u <;> simp

/-- Helper: `clearDatabase` only ever touches `rows`. -/
theorem clearDatabase_proj (s : CacheState) :
    (CacheService.clearDatabase s).stats = s.stats ∧
    (CacheService.clearDatabase s).memory = s.memory := by
  unfold CacheService.clearDatabase
  rcases dbGetDatabase s with e | u <;> simp

/-- Helper: `getFromDatabase` only ever touches the ghost `dbReads` counter
of the state it returns. -/
theorem getFromDatabase_proj (s : CacheState) (key : String) (now : Nat) :
    (CacheService.getFromDatabase s key now).2.stats = s.stats ∧
    (CacheService.getFromDatabase s key now).2.memory = s.memory ∧
    (CacheService.getFromDatabase s key now).2.defaultTTL = s.defaultTTL ∧
    (CacheService.getFromDatabase s key now).2.rows = s.rows := by
  unfold CacheService.getFromDatabase
  rcases dbGetDatabase s with e | u <;> simp <;> split <;> (try split) <;> simp

/-- Helper: an issue written as a row and read back is the issue with its
repository fields rebuilt from the key's owner and repo. -/
theorem rowToIssue_mkRow (issue : GitHubIssue) (owner repo c e : String) :
    rowToIssue (mkRow issue owner repo c e) owner repo =
      reconstructIssue issue owner repo := by
  cases h : issue.draft <;>
    simp [rowToIssue, mkRow, reconstructIssue, h]

/-- Helper: a freshly set memory entry is returned by an immediate lookup. -/
theorem memGet_memSet_self (mem : Memory) (key : String) (v : GitHubIssue)
    (ttl now : Nat) :
    memGet (memSet mem key v ttl now) key now =
      (some v, memSet mem key v ttl now) := by
  unfold memGet memSet
  simp only [List.find?, beq_self_eq_true]
  have hexp : memExpired { value := v, expiresAt := memExpiry ttl now } now = false := by
    unfold memExpired memExpiry
    by_cases h : 0 < ttl <;> simp [h]
  simp [hexp]

/-- Helper: a memory entry set at `now` and still unexpired at `t2` is
returned by a lookup at `t2`. -/
theorem memGet_memSet_live (mem : Memory) (key : String) (v : GitHubIssue)
    (ttl now t2 : Nat)
    (h : memExpired { value := v, expiresAt := memExpiry ttl now } t2 = false) :
    memGet (memSet mem key v ttl now) key t2 =
      (some v, memSet mem key v ttl now) := by
  unfold memGet memSet
  simp only [List.find?, beq_self_eq_true]
  simp [memSet] at h ⊢
  simp [h]

/-- Helper: a memory-tier hit makes `get` return the value. -/
theorem get_hit (s : CacheState) (key : String) (now : Nat) (v : GitHubIssue)
    (mem2 : Memory) (h : memGet s.memory key now = (some v, mem2)) :
    (CacheService.get s key now).1 = some v := by
  unfold CacheService.get
  rw [h]

/-- Helper: on a memory-tier hit that leaves the memory unchanged, `get`
returns the value and only bumps the hit counter. -/
theorem get_hit_eq (s : CacheState) (key : String) (now : Nat) (v : GitHubIssue)
    (h : memGet s.memory key now = (some v, s.memory)) :
    CacheService.get s key now =
      (some v, { s with stats := { s.stats with hits := s.stats.hits + 1 } }) := by
  unfold CacheService.get
  rw [h]

/-- Helper: the memory tier after `set` holds the freshly written entry. -/
theorem set_memory (s : CacheState) (key : String) (v : GitHubIssue)
    (ttl : Option Nat) (now : Nat) :
    (CacheService.set s key v ttl now).memory =
      memSet s.memory key v (jsOr ttl s.defaultTTL) now := by
  unfold CacheService.set
  simp only []
  rw [(saveToDatabase_proj _ key v _ now).2.1]

/-- Helper: `set` does not change the store-reachability flag. -/
theorem set_dbOk (s : CacheState) (key : String) (v : GitHubIssue)
    (ttl : Option Nat) (now : Nat) :
    (CacheService.set s key v ttl now).dbOk = s.dbOk := by
  unfold CacheService.set
  simp only []
  rw [(saveToDatabase_proj _ key v _ now).2.2.2]

/-- Helper: when the store is reachable, the key parses to five parts whose
number parses, and a row matches the query, `getFromDatabase` returns the
reconstructed issue and bumps the ghost read counter. -/
theorem getFromDatabase_hit (s : CacheState) (key owner repo numStr : String)
    (num : Int) (now : Nat) (row : IssueRow)
    (hdb : s.dbOk = true)
    (hstart : jsStartsWith key "github:issue:" = true)
    (hsplit : jsSplit key ':' = ["github", "issue", owner, repo, numStr])
    (hnum : parseIntJS numStr = some num)
    (hfind : s.rows.find? (fun r => rowQueryMatch r owner repo (some num) now) = some row) :
    CacheService.getFromDatabase s key now =
      (some (rowToIssue row owner repo), { s with dbReads := s.dbReads + 1 }) := by
  unfold CacheService.getFromDatabase
  simp only [dbGetDatabase, hdb, hsplit, hnum, hstart]
  simp [hfind, hnum]

/-- Helper: a memory miss that leaves the memory unchanged followed by a
persistent-tier hit promotes the value into the memory tier at the default
TTL and counts a hit. -/
theorem get_db_hit (s : CacheState) (key : String) (now : Nat) (v : GitHubIssue)
    (s2 : CacheState)
    (hmem : memGet s.memory key now = (none, s.memory))
    (hdbres : CacheService.getFromDatabase s key now = (some v, s2)) :
    CacheService.get s key now =
      (some v, { s2 with memory := memSet s2.memory key v s2.defaultTTL now,
                         stats := { s2.stats with hits := s2.stats.hits + 1 } }) := by
  unfold CacheService.get
  rw [hmem]
  dsimp only
  have heta : ({ s with memory := s.memory } : CacheState) = s := rfl
  rw [heta, hdbres]

/-- C1: the claim states that after `set(k, v, t)` with a positive ttl,
`get(k)` at or after t seconds returns absent from both tiers regardless of
background-sweep timing.  The code violates this: `set` stores `expires_at`
as an ISO-8601 string ("...T...Z") while the read filters compare it against
SQLite's `datetime("now")` ("YYYY-MM-DD HH:MM:SS"); on any same-day
comparison the byte-wise TEXT comparison puts the ISO string above the
rendered now (since 'T' sorts above ' '), so the persistent tier still
serves the entry after its ttl, re-promotes it into the memory tier, and the
sweeps (memory sweep and `cleanupExpired`) do not remove it.  Concretely:
`set(key0, issue0, ttl=1)` at 2001-09-09T01:46:40.000Z, then at +2 seconds
the memory tier is expired yet `get` returns the value, also after a memory
sweep, and `cleanupExpired` deletes nothing. -/
theorem c1_ttl_expiry_db_tier_bug :
    (memGet c1After.memory key0 1000000002000).1 = none ∧
    (CacheService.get c1After key0 1000000002000).1 = some issue0 ∧
    (CacheService.get { c1After with memory := memSweep c1After.memory 1000000002000 }
        key0 1000000002000).1 = some issue0 ∧
    (CacheService.cleanupExpired c1After 1000000002000).rows = c1After.rows := by
  decide

/-- C2: for a key whose entry is live only in the persistent tier, `get`
returns the value reconstructed from the stored row, re-populates the fast
cache with it at the full default TTL (not the entry's remaining lifetime),
and a subsequent `get` within the default TTL is served from the fast cache
with no further persistent-store read (the ghost read counter stays put). -/
theorem c2_read_through_promotion (s : CacheState)
    (key owner repo numStr : String) (num : Int)
    (row : IssueRow) (mem1 : Memory) (t1 t2 : Nat)
    (hdb : s.dbOk = true)
    (hmem : memGet s.memory key t1 = (none, mem1))
    (hstart : jsStartsWith key "github:issue:" = true)
    (hsplit : jsSplit key ':' = ["github", "issue", owner, repo, numStr])
    (hnum : parseIntJS numStr = some num)
    (hfind : s.rows.find? (fun r => rowQueryMatch r owner repo (some num) t1) = some row)
    (httl : 0 < s.defaultTTL)
    (ht2 : t2 ≤ t1 + s.defaultTTL * 1000) :
    CacheService.get s key t1 =
      (some (rowToIssue row owner repo),
        { s with memory := memSet mem1 key (rowToIssue row owner repo) s.defaultTTL t1,
                 stats := { s.stats with hits := s.stats.hits + 1 },
                 dbReads := s.dbReads + 1 }) ∧
    memSet mem1 key (rowToIssue row owner repo) s.defaultTTL t1 =
      (key, { value := rowToIssue row owner repo, expiresAt := t1 + s.defaultTTL * 1000 }) ::
        mem1.filter (fun p => !(p.1 == key)) ∧
    (CacheService.get ((CacheService.get s key t1).2) key t2).1 =
      some (rowToIssue row owner repo) ∧
    (CacheService.get ((CacheService.get s key t1).2) key t2).2.dbReads =
      s.dbReads + 1 := by
  have hfirst : CacheService.get s key t1 =
      (some (rowToIssue row owner repo),
        { s with memory := memSet mem1 key (rowToIssue row owner repo) s.defaultTTL t1,
                 stats := { s.stats with hits := s.stats.hits + 1 },
                 dbReads := s.dbReads + 1 }) := by
    unfold CacheService.get
    rw [hmem]
    dsimp only
    unfold CacheService.getFromDatabase
    simp only [dbGetDatabase, hdb, hsplit, hnum, hstart]
    simp [hfind, hnum]
  have hshape : memSet mem1 key (rowToIssue row owner repo) s.defaultTTL t1 =
      (key, { value := rowToIssue row owner repo, expiresAt := t1 + s.defaultTTL * 1000 }) ::
        mem1.filter (fun p => !(p.1 == key)) := by
    unfold memSet memExpiry
    rw [if_pos httl]
  have hnotexp : memExpired
      { value := rowToIssue row owner repo,
        expiresAt := memExpiry s.defaultTTL t1 } t2 = false := by
    unfold memExpired memExpiry
    rw [if_pos httl]
    have h2 : ¬ (t1 + s.defaultTTL * 1000 < t2) := by omega
    simp [h2]
  have hsecond := get_hit_eq ((CacheService.get s key t1).2) key t2
    (rowToIssue row owner repo) (by
      rw [hfirst]
      exact memGet_memSet_live mem1 key (rowToIssue row owner repo)
        s.defaultTTL t1 t2 hnotexp)
  refine ⟨hfirst, hshape, ?_, ?_⟩
  · rw [hsecond]
  · rw [hsecond, hfirst]

/-- C2 witness: the promotion theorem applied to a concrete state whose only
entry for issue0 lives in the persistent tier. -/
theorem c2_read_through_promotion_witness :
    (CacheService.get ((CacheService.get sW2 key0 1000000000000).2)
        key0 1000000000000).1 = some (rowToIssue rowW2 "octo" "repo") ∧
    (CacheService.get ((CacheService.get sW2 key0 1000000000000).2)
        key0 1000000000000).2.dbReads = sW2.dbReads + 1 := by
  have h := c2_read_through_promotion sW2 key0 "octo" "repo" "7" 7 rowW2 []
    1000000000000 1000000000000 (by decide) (by decide) (by decide) (by decide)
    (by decide) (by decide) (by decide) (by decide)
  exact ⟨h.2.2.1, h.2.2.2⟩

/-- C3 counterexample: the claim says `set(k, v)` unconditionally upserts
into the persistent store for every key and value, so a new orchestrator
over the same store returns v while the ttl is unexpired.  False: for the
key "session:1" (no `github:issue:` namespace) nothing is persisted, and a
new orchestrator's `get` at the very moment of the write returns null. -/
theorem c3_unconditional_upsert_cex :
    c3After.rows = [] ∧
    (CacheService.get (restart c3After 300) "session:1" 1000000000000).1 = none := by
  decide

/-- C3 (amended): `set(k, v)` upserts into the persistent store exactly when
k is namespaced `github:issue:` with at least five colon-parts and v has
truthy number and title and a schema-valid state ('open' or 'closed'); the
REPLACE removes rows conflicting on id or on (owner, repo, number) — the row
being keyed by the key's owner/repo segments and the value's number — and
the insert fires the cleanup trigger, which purges rows whose expiry string
compares below the current timestamp.  A new orchestrator over the same
store then returns from `get(k)` the issue reconstructed from the row
(repository fields rebuilt from the key) as long as the row passes the
store's expiry comparison — in particular whenever the ttl has not
elapsed. -/
theorem c3_write_through_amended (s : CacheState)
    (key owner repo numStr : String)
    (issue : GitHubIssue) (ttl : Option Nat) (newTTL t1 t2 : Nat)
    (hdb : s.dbOk = true)
    (hstart : jsStartsWith key "github:issue:" = true)
    (hsplit : jsSplit key ':' = ["github", "issue", owner, repo, numStr])
    (hnum : parseIntJS numStr = some (Int.ofNat issue.number))
    (hn : issue.number ≠ 0)
    (ht : issue.title ≠ "")
    (hstate : issue.state = "open" ∨ issue.state = "closed")
    (hkeep : strLt (isoRender (t1 + jsOr ttl s.defaultTTL * 1000))
      (sqliteRender t1) = false)
    (hlive : strLt (sqliteRender t2)
      (isoRender (t1 + jsOr ttl s.defaultTTL * 1000)) = true) :
    (CacheService.set s key issue ttl t1).rows =
      purgeExpiredRows (upsertRow s.rows (mkRow issue owner repo (sqliteRender t1)
        (isoRender (t1 + jsOr ttl s.defaultTTL * 1000)))) t1 ∧
    (CacheService.get (restart (CacheService.set s key issue ttl t1) newTTL)
        key t2).1 = some (reconstructIssue issue owner repo) := by
  have hrows : (CacheService.set s key issue ttl t1).rows =
      purgeExpiredRows (upsertRow s.rows (mkRow issue owner repo (sqliteRender t1)
        (isoRender (t1 + jsOr ttl s.defaultTTL * 1000)))) t1 := by
    unfold CacheService.set CacheService.saveToDatabase
    simp only [dbGetDatabase, hdb, hsplit]
    simp [hstart, hn, ht, hsplit, hstate]
  refine ⟨hrows, ?_⟩
  have hdb2 : (restart (CacheService.set s key issue ttl t1) newTTL).dbOk = true := by
    unfold restart
    rw [set_dbOk]
    exact hdb
  have hrows2 : (restart (CacheService.set s key issue ttl t1) newTTL).rows =
      purgeExpiredRows (upsertRow s.rows (mkRow issue owner repo (sqliteRender t1)
        (isoRender (t1 + jsOr ttl s.defaultTTL * 1000)))) t1 := hrows
  have hmatch : rowQueryMatch (mkRow issue owner repo (sqliteRender t1)
      (isoRender (t1 + jsOr ttl s.defaultTTL * 1000))) owner repo
      (some (Int.ofNat issue.number)) t2 = true := by
    unfold rowQueryMatch mkRow intMatch dbRowLive
    simp [hlive]
  have hpa : (!(strLt (mkRow issue owner repo (sqliteRender t1)
      (isoRender (t1 + jsOr ttl s.defaultTTL * 1000))).expiresAt
      (sqliteRender t1))) = true := by
    unfold mkRow
    simp [hkeep]
  have hfind2 : (restart (CacheService.set s key issue ttl t1) newTTL).rows.find?
      (fun r => rowQueryMatch r owner repo (some (Int.ofNat issue.number)) t2) =
      some (mkRow issue owner repo (sqliteRender t1)
        (isoRender (t1 + jsOr ttl s.defaultTTL * 1000))) := by
    rw [hrows2]
    unfold purgeExpiredRows upsertRow
    simp only [List.filter_cons, hpa, eq_self_iff_true, if_true]
    exact List.find?_cons_of_pos _ hmatch
  have hdbhit := getFromDatabase_hit
    (restart (CacheService.set s key issue ttl t1) newTTL) key owner repo numStr
    (Int.ofNat issue.number) t2
    (mkRow issue owner repo (sqliteRender t1)
      (isoRender (t1 + jsOr ttl s.defaultTTL * 1000)))
    hdb2 hstart hsplit hnum hfind2
  have hget := get_db_hit
    (restart (CacheService.set s key issue ttl t1) newTTL) key t2
    (rowToIssue (mkRow issue owner repo (sqliteRender t1)
      (isoRender (t1 + jsOr ttl s.defaultTTL * 1000))) owner repo)
    _ rfl hdbhit
  rw [hget]
  simp [rowToIssue_mkRow]

/-- C3 witness: the amended write-through theorem at issue0 and its derived
key, read back one second later through a fresh orchestrator. -/
theorem c3_write_through_amended_witness :
    (CacheService.get
        (restart (CacheService.set (newCacheService 300 true) key0 issue0 none
          1000000000000) 300)
        key0 1000000001000).1 = some (reconstructIssue issue0 "octo" "repo") := by
  have h := c3_write_through_amended (newCacheService 300 true) key0 "octo" "repo"
    "7" issue0 none 300 1000000000000 1000000001000 (by decide) (by decide)
    (by decide) (by decide) (by decide) (by decide) (by decide) (by decide)
    (by decide)
  exact h.2

/-- C4: `get` (and `getIssue`) never propagates a read failure: with the
persistent store unreachable (the exception case of both read tiers) and a
memory-tier miss, the result is null and the miss counter is incremented —
no error escapes to the caller.  (In the source, every inner read step
either cannot throw or catches its own exception and returns null, so the
outer catch — which would also produce a miss — is unreachable.) -/
theorem c4_read_faults_become_misses (s : CacheState)
    (key owner repo : String) (n : Nat) (now : Nat)
    (mem1 mem2 : Memory)
    (hdb : s.dbOk = false)
    (h1 : memGet s.memory key now = (none, mem1))
    (h2 : memGet s.memory (GITHUB_ISSUE owner repo n) now = (none, mem2)) :
    CacheService.get s key now =
      (none, { s with memory := mem1,
                      stats := { s.stats with misses := s.stats.misses + 1 } }) ∧
    CacheService.getIssue s owner repo n now =
      (none, { s with memory := mem2,
                      stats := { s.stats with misses := s.stats.misses + 1 } }) := by
  constructor
  · unfold CacheService.get
    rw [h1]
    unfold CacheService.getFromDatabase
    simp [dbGetDatabase, hdb]
  · unfold CacheService.getIssue CacheService.get
    rw [h2]
    unfold CacheService.getFromDatabase
    simp [dbGetDatabase, hdb]

/-- C4 witness: `getIssue("octo","repo",999)` on a fresh service over an
unreachable store returns null with one counted miss (spec scenario B). -/
theorem c4_read_faults_become_misses_witness :
    CacheService.getIssue sNoDb "octo" "repo" 999 1000000000000 =
      (none, { sNoDb with memory := [],
                          stats := { sNoDb.stats with misses := sNoDb.stats.misses + 1 } }) := by
  have h := c4_read_faults_become_misses sNoDb "k" "octo" "repo" 999
    1000000000000 [] [] (by decide) (by decide) (by decide)
  exact h.2

/-- C5 counterexample: the claim says a failed persistent write inside
`set` raises a CacheError to the caller.  False: with the store unreachable
the write fails, yet `set` completes successfully (`setE` returns `ok`, not
an error). -/
theorem c5_set_raises_cex :
    sNoDb.dbOk = false ∧
    (CacheService.setE sNoDb key0 issue0 (some 60) 1000000000000).isOk = true := by
  decide

/-- C5 (amended): if the persistent-store write inside `set(k, v, ttl)`
fails, the failure is caught and logged inside the database-write helper and
swallowed: `set` completes without raising a CacheError, the already-written
fast-cache copy is left in place (no rollback), the persistent rows are
unchanged, and the sets counter is still incremented. -/
theorem c5_write_failure_swallowed (s : CacheState) (key : String)
    (v : GitHubIssue) (ttl : Option Nat) (now : Nat)
    (hdb : s.dbOk = false) :
    CacheService.setE s key v ttl now =
      .ok { s with memory := memSet s.memory key v (jsOr ttl s.defaultTTL) now,
                   stats := { s.stats with sets := s.stats.sets + 1 } } := by
  unfold CacheService.setE CacheService.set CacheService.saveToDatabase
  simp [dbGetDatabase, hdb]

/-- C5 witness: the amended theorem at a concrete unreachable-store state. -/
theorem c5_write_failure_swallowed_witness :
    CacheService.setE sNoDb key0 issue0 none 1000000000000 =
      .ok { sNoDb with
              memory := memSet sNoDb.memory key0 issue0
                (jsOr none sNoDb.defaultTTL) 1000000000000,
              stats := { sNoDb.stats with sets := sNoDb.stats.sets + 1 } } :=
  c5_write_failure_swallowed sNoDb key0 issue0 none 1000000000000 (by decide)

/-- C6: key derivation is deterministic and `setIssue`/`getIssue` share it:
for every (owner, repo, number) and issue, `setIssue` followed by `getIssue`
for the same triple at the same instant returns exactly the stored issue
(hence an issue with number 42 and title "Bug" comes back with both
preserved, spec scenario A). -/
theorem c6_issue_key_roundtrip (s : CacheState) (owner repo : String) (n : Nat)
    (issue : GitHubIssue) (now : Nat) :
    (CacheService.getIssue (CacheService.setIssue s owner repo n issue now)
        owner repo n now).1 = some issue := by
  unfold CacheService.getIssue CacheService.setIssue
  apply get_hit
  rw [set_memory]
  exact memGet_memSet_self s.memory (GITHUB_ISSUE owner repo n) issue _ now

/-- C7 counterexample: the claim says `getStats().size` equals the maximum
of the fast cache's live-entry count and the persistent store's live row
count.  False: the fast-cache side counts raw keys (`keys().length` does not
filter expired entries), so a state whose single memory entry is expired but
unswept and whose store is empty reports size 1 while both live counts are
0.  (The claim's "hit, miss, set, and delete counters" is also inexact:
`getStats` returns only hits, misses and size.) -/
theorem c7_stats_size_cex :
    (memExpired { value := issue0, expiresAt := 1000000001000 } 1000000002000) = true ∧
    CacheService.getStats sC7 1000000002000 = { hits := 0, misses := 0, size := 1 } := by
  decide

/-- C7 (amended): `getStats()` returns the hit and miss counters (sets and
deletes are tracked but not returned) and a size equal to the maximum of the
fast cache's raw key count — which may include expired-but-unswept entries —
and the count of persistent rows passing the store's expiry comparison; and
after `clear()` with the store reachable, `getStats().size = 0`. -/
theorem c7_getstats_amended (s : CacheState) (now : Nat) (h : s.dbOk = true) :
    (CacheService.getStats (CacheService.clear s) now).size = 0 ∧
    (CacheService.getStats s now).hits = s.stats.hits ∧
    (CacheService.getStats s now).misses = s.stats.misses ∧
    (CacheService.getStats s now).size =
      max s.memory.length (CacheService.getDatabaseCacheSize s now) := by
  refine ⟨?_, rfl, rfl, rfl⟩
  unfold CacheService.clear CacheService.clearDatabase CacheService.getStats
    CacheService.getDatabaseCacheSize
  simp [dbGetDatabase, h]

/-- C7 witness: the amended getStats theorem at the concrete state sC7. -/
theorem c7_getstats_amended_witness :
    (CacheService.getStats (CacheService.clear sC7) 1000000002000).size = 0 :=
  (c7_getstats_amended sC7 1000000002000 (by decide)).1

/-- C8 counterexample: the claim says `delete(k)` on a key absent from both
tiers leaves the cache state unchanged.  False: on a fresh service (both
tiers empty) deleting the absent key "k" still increments the deletes
counter, so the state differs. -/
theorem c8_delete_changes_counter_cex :
    CacheService.delete (newCacheService 300 true) "k" ≠ newCacheService 300 true := by
  decide

/-- C8 (amended): for every key absent from both tiers, `delete(k)` does not
throw and leaves the stored entries of both tiers unchanged; only the
internal deletes counter (never exposed by `getStats`) is incremented. -/
theorem c8_idempotent_delete_amended (s : CacheState) (key : String)
    (hmem : s.memory.find? (fun p => p.1 == key) = none)
    (hrow : ∀ r ∈ s.rows, rowDeleteTarget key r = false) :
    CacheService.delete s key =
      { s with stats := { s.stats with deletes := s.stats.deletes + 1 } } := by
  unfold CacheService.delete CacheService.deleteFromDatabase
  have hm : memDel s.memory key = s.memory := by
    unfold memDel
    apply List.filter_eq_self.2
    intro a ha
    have := List.find?_eq_none.1 hmem a ha
    simpa using this
  rcases hdb : dbGetDatabase s with e | u
  · simp [hm, hdb]
  · have hr : s.rows.filter (fun r => !rowDeleteTarget key r) = s.rows := by
      apply List.filter_eq_self.2
      intro a ha
      simp [hrow a ha]
    simp [hm, hdb, hr]

/-- C8 witness: deleting an absent issue key from a fresh service only bumps
the deletes counter. -/
theorem c8_idempotent_delete_amended_witness :
    CacheService.delete (newCacheService 300 true) "github:issue:octo:repo:9" =
      { newCacheService 300 true with
          stats := { (newCacheService 300 true).stats with
            deletes := (newCacheService 300 true).stats.deletes + 1 } } :=
  c8_idempotent_delete_amended (newCacheService 300 true)
    "github:issue:octo:repo:9" (by decide) (by simp [newCacheService])

/-- C9: the statistics counters are monotonically non-decreasing across
every cache operation (`get`, `set`, `delete`), and `clear` removes the
stored data of both tiers (memory always, rows when the store is reachable)
without changing any counter; `cleanupExpired` leaves the counters unchanged
as well. -/
theorem c9_stats_monotone (s : CacheState) (key : String) (v : GitHubIssue)
    (ttl : Option Nat) (now : Nat) :
    statsLe s.stats ((CacheService.get s key now).2).stats ∧
    statsLe s.stats (CacheService.set s key v ttl now).stats ∧
    statsLe s.stats (CacheService.delete s key).stats ∧
    (CacheService.clear s).stats = s.stats ∧
    (CacheService.clear s).memory = [] ∧
    (s.dbOk = true → (CacheService.clear s).rows = []) ∧
    (CacheService.cleanupExpired s now).stats = s.stats := by
  have hclear1 := (clearDatabase_proj { s with memory := [] }).1
  have hclear2 := (clearDatabase_proj { s with memory := [] }).2
  refine ⟨?_, ?_, ?_, ?_, ?_, ?_, ?_⟩
  · unfold CacheService.get
    rcases hm : memGet s.memory key now with ⟨mv, mem1⟩
    rcases mv with _ | v0
    · dsimp only
      rcases hdbres : CacheService.getFromDatabase { s with memory := mem1 } key now with ⟨dv, s2⟩
      have hst : s2.stats = s.stats := by
        have h := (getFromDatabase_proj { s with memory := mem1 } key now).1
        rw [hdbres] at h
        simpa using h
      rcases dv with _ | v1 <;> simp [statsLe, hst]
    · simp [statsLe]
  · unfold CacheService.set
    simp only []
    rw [(saveToDatabase_proj _ key v _ now).1]
    simp [statsLe]
  · unfold CacheService.delete
    simp only []
    rw [(deleteFromDatabase_proj _ key).1]
    simp [statsLe]
  · unfold CacheService.clear
    simpa using hclear1
  · unfold CacheService.clear
    simpa using hclear2
  · intro hdb
    unfold CacheService.clear CacheService.clearDatabase
    simp [dbGetDatabase, hdb]
  · unfold CacheService.cleanupExpired
    rcases hdb : dbGetDatabase s with e | u <;> simp

/-- C9 witness: the monotonicity theorem applied at a fresh service; in
particular `clear` empties the persistent rows there. -/
theorem c9_stats_monotone_witness :
    (CacheService.clear (newCacheService 300 true)).rows = [] :=
  (c9_stats_monotone (newCacheService 300 true) "k" issue0 none 0).2.2.2.2.2.1 (by decide)

/-- C10: the composite key derivation is not injective: the distinct triples
("a:b","c",5) and ("a","b:c",5) yield the same key string, the persistent
path parses both to the same (owner, repo, number) columns, and the two
triples share one cache entry — an issue stored via `setIssue` under the
first triple is returned by `getIssue` under the second. -/
theorem c10_key_not_injective :
    GITHUB_ISSUE "a:b" "c" 5 = GITHUB_ISSUE "a" "b:c" 5 ∧
    ("a:b", "c") ≠ ("a", "b:c") ∧
    dbKeyColumns (GITHUB_ISSUE "a:b" "c" 5) = dbKeyColumns (GITHUB_ISSUE "a" "b:c" 5) ∧
    (CacheService.getIssue
        (CacheService.setIssue (newCacheService 300 true) "a:b" "c" 5 issue0 1000000000000)
        "a" "b:c" 5 1000000000000).1 = some issue0 := by
  decide
